import Mathlib

/-!
# Verification of the FitStack fitness server

A shallow embedding, in Lean 4, of the parts of the `miniproject` fitness
web application that the specification's testable claims are about:

* the deterministic fallback workout-plan generator (`server/openai.ts`,
  `generateFallbackPlan`);
* the credential and session module (`server/auth.ts`: `hashPassword`,
  `comparePassword`, `generateToken`, `verifyToken`, `requireAuth`),
  with the third-party `jsonwebtoken` and `bcrypt` libraries modelled
  symbolically (ideal MAC, ideal salted digest);
* the persistence adapter (`server/storage.ts`, class `DatabaseStorage`),
  with the SQL database modelled as in-memory lists of rows and each
  drizzle query translated to the corresponding filter / sort / limit
  combinator chain.

Machine numbers: the TypeScript schema validates `durationWeeks` into
1..52 and `frequencyPerWeek` into 1..7, so these are embedded as `Nat`.
Timestamps (JS `Date`) are embedded as `Int` milliseconds since the epoch;
`real` database columns that are only stored and compared, never computed
with, are embedded as `ℚ`.
-/

namespace FitStack

/-! ## Data model: plan JSON shape (shared/schema.ts) -/

/-- `PlanExercise` from `shared/schema.ts`: one exercise entry of a plan day. -/
structure PlanExercise where
  name : String
  sets : Nat
  reps : String
  rest : Nat
  notes : Option String
deriving DecidableEq, Inhabited

/-- `PlanDay` from `shared/schema.ts`. -/
structure PlanDay where
  dayNumber : Nat
  name : String
  exercises : List PlanExercise
  restDay : Bool
deriving DecidableEq, Inhabited

/-- `PlanWeek` from `shared/schema.ts`. -/
structure PlanWeek where
  weekNumber : Nat
  days : List PlanDay
deriving DecidableEq, Inhabited

/-- `PlanData` from `shared/schema.ts`. -/
structure PlanData where
  weeks : List PlanWeek
deriving DecidableEq, Inhabited

/-- The `levelEnum` of the schema: BEGINNER / INTERMEDIATE / ADVANCED. -/
inductive Level where
  | BEGINNER
  | INTERMEDIATE
  | ADVANCED
deriving DecidableEq, Inhabited

/-- `GeneratePlanData` (the zod `generatePlanSchema`): request body of
`POST /api/plans/generate`.  The schema validates `frequencyPerWeek` into
1..7 and `durationWeeks` into 1..52, so both are embedded as `Nat`. -/
structure GeneratePlanData where
  goal : String
  level : Level
  frequencyPerWeek : Nat
  durationWeeks : Nat
  equipment : Option (List String)
  timePerDay : Option Nat
  injuries : Option String
deriving DecidableEq, Inhabited

/-! ## The fallback plan generator (server/openai.ts, generateFallbackPlan) -/

/-- The hardcoded six-exercise bodyweight list of `generateFallbackPlan`. -/
def fallbackExercises : List PlanExercise :=
  [ { name := "Push-ups", sets := 3, reps := "10-12", rest := 60, notes := some "Keep core engaged" },
    { name := "Squats", sets := 3, reps := "12-15", rest := 60, notes := some "Keep back straight" },
    { name := "Plank", sets := 3, reps := "30-60 sec", rest := 45, notes := some "Hold position" },
    { name := "Lunges", sets := 3, reps := "10 each leg", rest := 60, notes := some "Step forward" },
    { name := "Mountain Climbers", sets := 3, reps := "20", rest := 45, notes := some "Fast pace" },
    { name := "Burpees", sets := 3, reps := "8-10", rest := 90, notes := some "Full extension" } ]

/-- Day `d` of week `w` in the fallback plan (the body of the inner loop of
`generateFallbackPlan`): active while `d <= frequencyPerWeek`, rest after. -/
def fallbackDay (w d freq : Nat) : PlanDay :=
  if d ≤ freq then
    { dayNumber := d
      name := if d % 2 = 1 then "Full Body Workout A" else "Full Body Workout B"
      exercises := fallbackExercises.take (4 + w % 2)
      restDay := false }
  else
    { dayNumber := d
      name := "Rest Day"
      exercises := []
      restDay := true }

/-- Week `w` of the fallback plan: days `d = 1..7` in order. -/
def fallbackWeek (freq w : Nat) : PlanWeek :=
  { weekNumber := w, days := (List.range 7).map fun j => fallbackDay w (j + 1) freq }

/-- The `goalNames` lookup table of `generateFallbackPlan`. -/
def goalNames : List (String × String) :=
  [ ("weight_loss", "Fat Burn"),
    ("muscle_gain", "Muscle Builder"),
    ("strength", "Strength Training"),
    ("endurance", "Endurance"),
    ("flexibility", "Flexibility"),
    ("general_fitness", "General Fitness") ]

/-- `level.toLowerCase()` on the three schema levels. -/
def levelLower : Level → String
  | .BEGINNER => "beginner"
  | .INTERMEDIATE => "intermediate"
  | .ADVANCED => "advanced"

/-- JS `String.prototype.replace` with the one-character string pattern
`"_"` replaces only the FIRST occurrence; recursion over the characters. -/
def replaceFirstUnderscoreChars : List Char → List Char
  | [] => []
  | c :: cs => if c = '_' then ' ' :: cs else c :: replaceFirstUnderscoreChars cs

/-- `goal.replace("_", " ")` as it behaves in JS: first underscore only. -/
def replaceFirstUnderscore (s : String) : String :=
  ⟨replaceFirstUnderscoreChars s.data⟩

/-- Return type of `generateFallbackPlan` (and of `generateWorkoutPlan`). -/
structure GeneratedPlan where
  title : String
  description : String
  data : PlanData
deriving DecidableEq, Inhabited

/-- `generateFallbackPlan` from `server/openai.ts`: the deterministic
template generator used when the OpenAI client is unavailable or fails. -/
def generateFallbackPlan (params : GeneratePlanData) : GeneratedPlan :=
  { title := (goalNames.lookup params.goal).getD "Fitness" ++ " "
      ++ toString params.durationWeeks ++ "-Week Plan"
    description := "A " ++ levelLower params.level ++ " "
      ++ toString params.durationWeeks ++ "-week program focusing on "
      ++ replaceFirstUnderscore params.goal ++ ". Train "
      ++ toString params.frequencyPerWeek ++ " days per week."
    data := { weeks := (List.range params.durationWeeks).map fun i =>
        fallbackWeek params.frequencyPerWeek (i + 1) } }

/-- The concrete request the spec uses as its worked example. -/
def exampleRequest : GeneratePlanData :=
  { goal := "weight_loss"
    level := .BEGINNER
    frequencyPerWeek := 3
    durationWeeks := 4
    equipment := none
    timePerDay := none
    injuries := none }

example : (generateFallbackPlan exampleRequest).data.weeks.length = 4 := by decide

example :
    ((generateFallbackPlan exampleRequest).data.weeks.map fun wk =>
      (wk.days.filter fun d => d.restDay == false).length) = [3, 3, 3, 3] := by decide

example : (generateFallbackPlan exampleRequest).title = "Fat Burn 4-Week Plan" := by decide

example : (generateFallbackPlan exampleRequest).description =
    "A beginner 4-week program focusing on weight loss. Train 3 days per week." := by decide

/-! ## Lemmas about the fallback generator -/

theorem restDay_fallbackDay (w d freq : Nat) :
    (fallbackDay w d freq).restDay = !decide (d ≤ freq) := by
  unfold fallbackDay
  split <;> simp_all

theorem countP_range_succ_le (F n : Nat) :
    (List.range n).countP (fun j => decide (j + 1 ≤ F)) = min F n := by
  induction n with
  | zero => simp
  | succ n ih =>
    rw [List.range_succ, List.countP_append, ih]
    by_cases h : n + 1 ≤ F
    · simp [List.countP_cons, h]
      omega
    · simp [List.countP_cons, h]
      omega

/-- C1: for every valid generation request (durationWeeks in 1..52,
frequencyPerWeek in 1..7), `generateFallbackPlan` returns a plan whose data
has exactly `durationWeeks` weeks, each week having exactly 7 day entries,
of which exactly `frequencyPerWeek` have `restDay = false`. -/
theorem fallback_plan_shape (p : GeneratePlanData)
    (hW1 : 1 ≤ p.durationWeeks) (hW2 : p.durationWeeks ≤ 52)
    (hF1 : 1 ≤ p.frequencyPerWeek) (hF2 : p.frequencyPerWeek ≤ 7) :
    (generateFallbackPlan p).data.weeks.length = p.durationWeeks ∧
    ∀ wk ∈ (generateFallbackPlan p).data.weeks,
      wk.days.length = 7 ∧
      (wk.days.filter fun d => d.restDay == false).length = p.frequencyPerWeek := by
  constructor
  · simp [generateFallbackPlan]
  · intro wk hwk
    simp only [generateFallbackPlan, List.mem_map, List.mem_range] at hwk
    obtain ⟨i, hi, rfl⟩ := hwk
    refine ⟨by simp [fallbackWeek], ?_⟩
    show (((List.range 7).map fun j =>
      fallbackDay (i + 1) (j + 1) p.frequencyPerWeek).filter
        fun d => d.restDay == false).length = p.frequencyPerWeek
    rw [← List.countP_eq_length_filter, List.countP_map]
    have hfun : ((fun d : PlanDay => d.restDay == false) ∘ fun j =>
        fallbackDay (i + 1) (j + 1) p.frequencyPerWeek)
        = fun j => decide (j + 1 ≤ p.frequencyPerWeek) := by
      funext j
      simp [Function.comp, restDay_fallbackDay]
    rw [hfun, countP_range_succ_le]
    omega

/-- Witness for C1 at the spec's worked example (4 weeks, 3 days/week). -/
theorem fallback_plan_shape_witness :
    (1 ≤ exampleRequest.durationWeeks ∧ exampleRequest.durationWeeks ≤ 52 ∧
     1 ≤ exampleRequest.frequencyPerWeek ∧ exampleRequest.frequencyPerWeek ≤ 7) ∧
    ((generateFallbackPlan exampleRequest).data.weeks.length = exampleRequest.durationWeeks ∧
     ∀ wk ∈ (generateFallbackPlan exampleRequest).data.weeks,
       wk.days.length = 7 ∧
       (wk.days.filter fun d => d.restDay == false).length = exampleRequest.frequencyPerWeek) :=
  ⟨⟨by decide, by decide, by decide, by decide⟩,
   fallback_plan_shape exampleRequest (by decide) (by decide) (by decide) (by decide)⟩

/-- C2: every active (non-rest) day of week number `w` carries exactly
`4 + (w % 2)` exercises — the slice is clipped to the six-exercise list's
length, which never bites since `4 + w % 2 ≤ 5` — taken as a prefix of the
hardcoded list; so 5 exercises in odd-numbered weeks and 4 in even ones. -/
theorem fallback_active_day_exercise_count (p : GeneratePlanData)
    (wk : PlanWeek) (day : PlanDay)
    (hwk : wk ∈ (generateFallbackPlan p).data.weeks) (hday : day ∈ wk.days)
    (hactive : day.restDay = false) :
    day.exercises = fallbackExercises.take (min (4 + wk.weekNumber % 2) fallbackExercises.length) ∧
    day.exercises.length = 4 + wk.weekNumber % 2 ∧
    (wk.weekNumber % 2 = 1 → day.exercises.length = 5) ∧
    (wk.weekNumber % 2 = 0 → day.exercises.length = 4) := by
  simp only [generateFallbackPlan, List.mem_map, List.mem_range] at hwk
  obtain ⟨i, hi, rfl⟩ := hwk
  simp only [fallbackWeek, List.mem_map, List.mem_range] at hday
  obtain ⟨j, hj, rfl⟩ := hday
  rw [restDay_fallbackDay] at hactive
  have hjF : j + 1 ≤ p.frequencyPerWeek := by
    by_contra h
    simp [h] at hactive
  have hmod : (i + 1) % 2 < 2 := Nat.mod_lt _ (by omega)
  have hmin : min (4 + (i + 1) % 2) fallbackExercises.length = 4 + (i + 1) % 2 := by
    show min (4 + (i + 1) % 2) 6 = 4 + (i + 1) % 2
    omega
  have hwkNum : (fallbackWeek p.frequencyPerWeek (i + 1)).weekNumber = i + 1 := rfl
  have hex : (fallbackDay (i + 1) (j + 1) p.frequencyPerWeek).exercises =
      fallbackExercises.take (4 + (i + 1) % 2) := by
    rw [fallbackDay, if_pos hjF]
  rw [hwkNum, hex, hmin]
  have htake : (fallbackExercises.take (4 + (i + 1) % 2)).length = 4 + (i + 1) % 2 := by
    rw [List.length_take]
    show min (4 + (i + 1) % 2) 6 = 4 + (i + 1) % 2
    omega
  exact ⟨rfl, htake, fun h1 => by rw [htake, h1], fun h0 => by rw [htake, h0]⟩

/-- Witness for C2: week 1, day 1 of the example request is active and
carries 5 exercises (odd week). -/
theorem fallback_active_day_exercise_count_witness :
    fallbackWeek 3 1 ∈ (generateFallbackPlan exampleRequest).data.weeks ∧
    fallbackDay 1 1 3 ∈ (fallbackWeek 3 1).days ∧
    (fallbackDay 1 1 3).restDay = false ∧
    ((fallbackDay 1 1 3).exercises =
        fallbackExercises.take (min (4 + (fallbackWeek 3 1).weekNumber % 2) fallbackExercises.length) ∧
     (fallbackDay 1 1 3).exercises.length = 4 + (fallbackWeek 3 1).weekNumber % 2 ∧
     ((fallbackWeek 3 1).weekNumber % 2 = 1 → (fallbackDay 1 1 3).exercises.length = 5) ∧
     ((fallbackWeek 3 1).weekNumber % 2 = 0 → (fallbackDay 1 1 3).exercises.length = 4)) :=
  ⟨by decide, by decide, by decide,
   fallback_active_day_exercise_count exampleRequest (fallbackWeek 3 1) (fallbackDay 1 1 3)
     (by decide) (by decide) (by decide)⟩

/-- C3 counterexample: in week 1 of the spec's worked example, the
consecutive active days 1 (odd) and 2 (even) carry exactly the same
exercise subset — the subsets do not alternate with day parity. -/
theorem fallback_consecutive_active_days_same_subset :
    (((generateFallbackPlan exampleRequest).data.weeks.getD 0 default).days.getD 0 default).restDay = false ∧
    (((generateFallbackPlan exampleRequest).data.weeks.getD 0 default).days.getD 1 default).restDay = false ∧
    (((generateFallbackPlan exampleRequest).data.weeks.getD 0 default).days.getD 0 default).dayNumber = 1 ∧
    (((generateFallbackPlan exampleRequest).data.weeks.getD 0 default).days.getD 1 default).dayNumber = 2 ∧
    (((generateFallbackPlan exampleRequest).data.weeks.getD 0 default).days.getD 0 default).exercises =
      (((generateFallbackPlan exampleRequest).data.weeks.getD 0 default).days.getD 1 default).exercises := by
  exact ⟨rfl, rfl, rfl, rfl, rfl⟩

/-- C3 amended: within a week, all active days share one and the same
exercise subset (a prefix of the six-exercise list whose length depends
only on week parity); what alternates with day parity is only the day
NAME, "Full Body Workout A" on odd day numbers and "Full Body Workout B"
on even ones. -/
theorem fallback_active_days_share_subset_names_alternate (p : GeneratePlanData)
    (wk : PlanWeek) (day1 day2 : PlanDay)
    (hwk : wk ∈ (generateFallbackPlan p).data.weeks)
    (h1 : day1 ∈ wk.days) (h2 : day2 ∈ wk.days)
    (ha1 : day1.restDay = false) (ha2 : day2.restDay = false) :
    day1.exercises = day2.exercises ∧
    day1.exercises = fallbackExercises.take (4 + wk.weekNumber % 2) ∧
    day1.name = (if day1.dayNumber % 2 = 1 then "Full Body Workout A" else "Full Body Workout B") := by
  simp only [generateFallbackPlan, List.mem_map, List.mem_range] at hwk
  obtain ⟨i, hi, rfl⟩ := hwk
  simp only [fallbackWeek, List.mem_map, List.mem_range] at h1 h2
  obtain ⟨j1, hj1, rfl⟩ := h1
  obtain ⟨j2, hj2, rfl⟩ := h2
  rw [restDay_fallbackDay] at ha1 ha2
  have hjF1 : j1 + 1 ≤ p.frequencyPerWeek := by
    by_contra h
    simp [h] at ha1
  have hjF2 : j2 + 1 ≤ p.frequencyPerWeek := by
    by_contra h
    simp [h] at ha2
  have hex1 : fallbackDay (i + 1) (j1 + 1) p.frequencyPerWeek =
      { dayNumber := j1 + 1
        name := if (j1 + 1) % 2 = 1 then "Full Body Workout A" else "Full Body Workout B"
        exercises := fallbackExercises.take (4 + (i + 1) % 2)
        restDay := false } := by
    rw [fallbackDay, if_pos hjF1]
  have hex2 : (fallbackDay (i + 1) (j2 + 1) p.frequencyPerWeek).exercises =
      fallbackExercises.take (4 + (i + 1) % 2) := by
    rw [fallbackDay, if_pos hjF2]
  rw [hex1, hex2]
  exact ⟨rfl, rfl, rfl⟩

/-- Witness for the amended C3: days 1 and 2 of week 1 of the example
request share their subset; day 1 is named "Full Body Workout A". -/
theorem fallback_active_days_share_subset_witness :
    fallbackWeek 3 1 ∈ (generateFallbackPlan exampleRequest).data.weeks ∧
    fallbackDay 1 1 3 ∈ (fallbackWeek 3 1).days ∧
    fallbackDay 1 2 3 ∈ (fallbackWeek 3 1).days ∧
    (fallbackDay 1 1 3).restDay = false ∧
    (fallbackDay 1 2 3).restDay = false ∧
    ((fallbackDay 1 1 3).exercises = (fallbackDay 1 2 3).exercises ∧
     (fallbackDay 1 1 3).exercises = fallbackExercises.take (4 + (fallbackWeek 3 1).weekNumber % 2) ∧
     (fallbackDay 1 1 3).name =
       (if (fallbackDay 1 1 3).dayNumber % 2 = 1 then "Full Body Workout A" else "Full Body Workout B")) :=
  ⟨by decide, by decide, by decide, by decide, by decide,
   fallback_active_days_share_subset_names_alternate exampleRequest
     (fallbackWeek 3 1) (fallbackDay 1 1 3) (fallbackDay 1 2 3)
     (by decide) (by decide) (by decide) (by decide) (by decide)⟩

/-! ## Title and description of the fallback plan (C8) -/

/-- Bool-valued check that `pre` starts the list `l` (char-by-char). -/
def leadsWith : List Char → List Char → Bool
  | [], _ => true
  | _ :: _, [] => false
  | a :: as, b :: bs => a == b && leadsWith as bs

/-- Bool-valued substring occurrence test on character lists. -/
def hasSub (sub : List Char) : List Char → Bool
  | [] => sub.isEmpty
  | c :: cs => leadsWith sub (c :: cs) || hasSub sub cs

/-- `mentions s sub` holds when `sub` occurs inside `s` as a contiguous
substring; used to state which looked-up names a produced string carries. -/
def mentions (s sub : String) : Bool :=
  hasSub sub.data s.data

/-- A generation request whose goal is absent from the `goalNames` table. -/
def cardioRequest : GeneratePlanData :=
  { exampleRequest with goal := "cardio" }

/-- C8 counterexample: the description of a fallback plan is NOT derived
from the goal-name lookup table.  For the out-of-table goal "cardio" the
fallback string "Fitness" appears in the title but nowhere in the
description, and for the in-table goal "weight_loss" the looked-up name
"Fat Burn" appears in the title but nowhere in the description (which
instead carries the raw goal text "weight loss"). -/
theorem fallback_description_not_from_goal_table :
    goalNames.lookup "cardio" = none ∧
    mentions (generateFallbackPlan cardioRequest).title "Fitness" = true ∧
    mentions (generateFallbackPlan cardioRequest).description "Fitness" = false ∧
    goalNames.lookup "weight_loss" = some "Fat Burn" ∧
    mentions (generateFallbackPlan exampleRequest).title "Fat Burn" = true ∧
    mentions (generateFallbackPlan exampleRequest).description "Fat Burn" = false ∧
    mentions (generateFallbackPlan exampleRequest).description "weight loss" = true := by
  exact ⟨rfl, rfl, rfl, rfl, rfl, rfl, rfl⟩

/-- C8 amended: the TITLE is derived from the fixed goal-name lookup table,
with the generic fallback string "Fitness" in place of the looked-up name
when the goal is not in the table; the DESCRIPTION does not use the table —
it is built directly from the request's level (lowercased), duration, goal
text (first underscore replaced by a space) and frequency. -/
theorem fallback_title_from_table_description_from_params (p : GeneratePlanData) :
    (∀ pretty, goalNames.lookup p.goal = some pretty →
      (generateFallbackPlan p).title = pretty ++ " " ++ toString p.durationWeeks ++ "-Week Plan") ∧
    (goalNames.lookup p.goal = none →
      (generateFallbackPlan p).title = "Fitness" ++ " " ++ toString p.durationWeeks ++ "-Week Plan") ∧
    (generateFallbackPlan p).description =
      "A " ++ levelLower p.level ++ " " ++ toString p.durationWeeks
        ++ "-week program focusing on " ++ replaceFirstUnderscore p.goal
        ++ ". Train " ++ toString p.frequencyPerWeek ++ " days per week." := by
  refine ⟨?_, ?_, rfl⟩
  · intro pretty hp
    show (goalNames.lookup p.goal).getD "Fitness" ++ " " ++ toString p.durationWeeks ++ "-Week Plan"
      = pretty ++ " " ++ toString p.durationWeeks ++ "-Week Plan"
    rw [hp]
    rfl
  · intro hp
    show (goalNames.lookup p.goal).getD "Fitness" ++ " " ++ toString p.durationWeeks ++ "-Week Plan"
      = "Fitness" ++ " " ++ toString p.durationWeeks ++ "-Week Plan"
    rw [hp]
    rfl

/-- Witness for the amended C8 at the spec's worked example. -/
theorem fallback_title_description_witness :
    (∀ pretty, goalNames.lookup exampleRequest.goal = some pretty →
      (generateFallbackPlan exampleRequest).title =
        pretty ++ " " ++ toString exampleRequest.durationWeeks ++ "-Week Plan") ∧
    (goalNames.lookup exampleRequest.goal = none →
      (generateFallbackPlan exampleRequest).title =
        "Fitness" ++ " " ++ toString exampleRequest.durationWeeks ++ "-Week Plan") ∧
    (generateFallbackPlan exampleRequest).description =
      "A " ++ levelLower exampleRequest.level ++ " " ++ toString exampleRequest.durationWeeks
        ++ "-week program focusing on " ++ replaceFirstUnderscore exampleRequest.goal
        ++ ". Train " ++ toString exampleRequest.frequencyPerWeek ++ " days per week." :=
  fallback_title_from_table_description_from_params exampleRequest

/-! ## Credential and session module (server/auth.ts)

The repository's `auth.ts` wraps two third-party libraries:

* `jsonwebtoken` — modelled symbolically below as an ideal MAC: a signed
  token carries its payload, its expiry instant and a signature, and the
  signature of the ideal scheme is (observationally) the authenticated
  triple (payload, expiry, secret) itself, so signature verification is
  equality of that triple.  A wire-level token is either a well-formed
  signed token or garbage (`malformed`), which models `jwt.verify`
  throwing `JsonWebTokenError` on undecodable input.  Time is `Nat`
  seconds since the epoch (the unit `jsonwebtoken` uses for `exp`).
* `bcrypt` — modelled further below as an ideal salted digest.
-/

/-- The `users` row / `User` type, restricted to the columns the
credential module and the claims read (`id`, `email`, `password`, `name`,
`role`); the role enum is embedded as the string the code compares with. -/
structure User where
  id : String
  email : String
  password : String
  name : String
  role : String
deriving DecidableEq, Inhabited

/-- The claims object signed into and decoded out of a token:
`{ id, email, role }`. -/
structure TokenClaims where
  id : String
  email : String
  role : String
deriving DecidableEq, Inhabited

/-- A structurally well-formed JWT: payload, expiry, signature.  In the
ideal-MAC model the signature is the authenticated data together with the
signing secret; a token is genuine iff `sig = (payload, exp, secret)`. -/
structure SignedToken where
  payload : TokenClaims
  exp : Nat
  sig : TokenClaims × Nat × String
deriving DecidableEq, Inhabited

/-- What arrives on the wire in place of a token: either a decodable
signed token or undecodable garbage. -/
inductive TokenWire where
  | signed (t : SignedToken)
  | malformed (raw : String)
deriving DecidableEq, Inhabited

/-- The failure causes `jsonwebtoken`'s `verify` distinguishes by throwing
different error classes. -/
inductive JwtError where
  | malformedToken
  | invalidSignature
  | tokenExpired
deriving DecidableEq, Inhabited

/-- Ideal-MAC model of `jwt.sign(payload, secret, { expiresIn })`. -/
def jwtSign (secret : String) (now expiresInSec : Nat) (payload : TokenClaims) : SignedToken :=
  { payload := payload
    exp := now + expiresInSec
    sig := (payload, now + expiresInSec, secret) }

/-- Ideal-MAC model of `jwt.verify(token, secret)`: throws (returns
`.error`) on undecodable input, wrong signature, or expiry. -/
def jwtVerify (secret : String) (now : Nat) (w : TokenWire) : Except JwtError TokenClaims :=
  match w with
  | .malformed _ => .error .malformedToken
  | .signed t =>
    if t.sig ≠ (t.payload, t.exp, secret) then .error .invalidSignature
    else if t.exp ≤ now then .error .tokenExpired
    else .ok t.payload

/-- `expiresIn: "7d"` in seconds. -/
def sevenDaysInSeconds : Nat := 7 * 24 * 60 * 60

/-- The hardcoded default of `JWT_SECRET` when `SESSION_SECRET` is unset. -/
def defaultJwtSecret : String := "fitstack-secret-key"

/-- `generateToken` from `server/auth.ts`: signs `{id, email, role}` of the
user with the process-wide secret and a 7-day expiry.  The signing secret
and the current instant are explicit parameters standing for the process
environment and clock. -/
def generateToken (secret : String) (now : Nat) (user : User) : SignedToken :=
  jwtSign secret now sevenDaysInSeconds { id := user.id, email := user.email, role := user.role }

/-- `verifyToken` from `server/auth.ts`: `try { return jwt.verify(...) }
catch { return null }` — every thrown error collapses to `none`. -/
def verifyToken (secret : String) (now : Nat) (token : TokenWire) : Option TokenClaims :=
  (jwtVerify secret now token).toOption

/-- The `Authorization` request header, already split at the single space
the code's `startsWith("Bearer ") / slice(7)` pair assumes: `scheme` is
what precedes the token. -/
structure BearerHeader where
  scheme : String
  token : TokenWire
deriving DecidableEq, Inhabited

/-- Outcome of an express middleware: an early `res.status(...).json(...)`
rejection, or `next()` with `req.user` set to the decoded claims. -/
inductive AuthOutcome where
  | reject (status : Nat) (message : String)
  | proceed (user : TokenClaims)
deriving DecidableEq, Inhabited

/-- `requireAuth` from `server/auth.ts`: 401 when the header is absent or
not a Bearer header, 401 when `verifyToken` returns null, else proceed
with the decoded claims attached to the request. -/
def requireAuth (secret : String) (now : Nat) (authHeader : Option BearerHeader) : AuthOutcome :=
  match authHeader with
  | none => .reject 401 "Authentication required"
  | some h =>
    if h.scheme ≠ "Bearer" then .reject 401 "Authentication required"
    else
      match verifyToken secret now h.token with
      | none => .reject 401 "Invalid or expired token"
      | some decoded => .proceed decoded

/-- C4: a token issued for a user and verified under the same secret
before the 7-day expiry decodes to the user's own id/email/role; an
expired token (7 days or more after issuance) and a tampered token (one
whose signature does not authenticate its own content under the secret)
both make `verifyToken` return null, so `requireAuth` rejects them
with 401. -/
theorem token_issue_verify_round_trip (secret : String) (user : User)
    (iat now now2 : Nat) (t : SignedToken)
    (hfresh : now < iat + sevenDaysInSeconds)
    (hexpired : iat + sevenDaysInSeconds ≤ now2)
    (htampered : t.sig ≠ (t.payload, t.exp, secret)) :
    verifyToken secret now (.signed (generateToken secret iat user)) =
      some { id := user.id, email := user.email, role := user.role } ∧
    verifyToken secret now2 (.signed (generateToken secret iat user)) = none ∧
    requireAuth secret now2 (some { scheme := "Bearer", token := .signed (generateToken secret iat user) }) =
      .reject 401 "Invalid or expired token" ∧
    verifyToken secret now (.signed t) = none ∧
    requireAuth secret now (some { scheme := "Bearer", token := .signed t }) =
      .reject 401 "Invalid or expired token" := by
  have hv1 : verifyToken secret now (.signed (generateToken secret iat user)) =
      some { id := user.id, email := user.email, role := user.role } := by
    simp only [verifyToken, generateToken, jwtSign, jwtVerify]
    rw [if_neg (by simp), if_neg (by omega)]
    rfl
  have hv2 : verifyToken secret now2 (.signed (generateToken secret iat user)) = none := by
    simp only [verifyToken, generateToken, jwtSign, jwtVerify]
    rw [if_neg (by simp), if_pos (by omega)]
    rfl
  have hv3 : verifyToken secret now (.signed t) = none := by
    simp only [verifyToken, jwtVerify]
    rw [if_pos htampered]
    rfl
  refine ⟨hv1, hv2, ?_, hv3, ?_⟩
  · simp only [requireAuth]
    rw [if_neg (by simp), hv2]
  · simp only [requireAuth]
    rw [if_neg (by simp), hv3]

/-- A concrete tampered token: the signature authenticates a different
payload than the one the token carries. -/
def tamperedToken : SignedToken :=
  { payload := { id := "u2", email := "mallory@example.com", role := "ADMIN" }
    exp := sevenDaysInSeconds
    sig := ({ id := "u1", email := "alice@example.com", role := "USER" }, sevenDaysInSeconds, defaultJwtSecret) }

/-- A concrete user row for the auth witnesses. -/
def aliceUser : User :=
  { id := "u1"
    email := "alice@example.com"
    password := "hashed"
    name := "Alice"
    role := "USER" }

/-- Witness for C4: issuance at time 0, verification at time 1 (fresh) and
at time 604800 (expired), plus the concrete tampered token. -/
theorem token_issue_verify_round_trip_witness :
    (1 < 0 + sevenDaysInSeconds ∧ 0 + sevenDaysInSeconds ≤ sevenDaysInSeconds ∧
     tamperedToken.sig ≠ (tamperedToken.payload, tamperedToken.exp, defaultJwtSecret)) ∧
    (verifyToken defaultJwtSecret 1 (.signed (generateToken defaultJwtSecret 0 aliceUser)) =
      some { id := aliceUser.id, email := aliceUser.email, role := aliceUser.role } ∧
    verifyToken defaultJwtSecret sevenDaysInSeconds (.signed (generateToken defaultJwtSecret 0 aliceUser)) = none ∧
    requireAuth defaultJwtSecret sevenDaysInSeconds
        (some { scheme := "Bearer", token := .signed (generateToken defaultJwtSecret 0 aliceUser) }) =
      .reject 401 "Invalid or expired token" ∧
    verifyToken defaultJwtSecret 1 (.signed tamperedToken) = none ∧
    requireAuth defaultJwtSecret 1 (some { scheme := "Bearer", token := .signed tamperedToken }) =
      .reject 401 "Invalid or expired token") :=
  ⟨⟨by decide, by decide, by decide⟩,
   token_issue_verify_round_trip defaultJwtSecret aliceUser 0 1 sevenDaysInSeconds tamperedToken
     (by decide) (by decide) (by decide)⟩

/-- C5: `verifyToken` is the `try/catch`-to-`Option` collapse of the
library's `verify`: it is total (never throws), returns `none` exactly
when the library call fails — whatever the failure cause (malformed token,
bad signature, expiry) — and therefore two calls failing for different
causes are indistinguishable to callers. -/
theorem verify_token_collapses_all_failures (secret : String) (now : Nat) (w w2 : TokenWire) :
    verifyToken secret now w = (jwtVerify secret now w).toOption ∧
    ((∃ e, jwtVerify secret now w = .error e) ↔ verifyToken secret now w = none) ∧
    (∀ e e2, jwtVerify secret now w = .error e → jwtVerify secret now w2 = .error e2 →
      verifyToken secret now w = verifyToken secret now w2) ∧
    ((∃ c, verifyToken secret now w = some c) ∨ verifyToken secret now w = none) := by
  refine ⟨rfl, ?_, ?_, ?_⟩
  · constructor
    · rintro ⟨e, he⟩
      simp [verifyToken, he, Except.toOption]
    · intro hn
      rw [verifyToken] at hn
      cases hjv : jwtVerify secret now w with
      | error e => exact ⟨e, rfl⟩
      | ok c => rw [hjv] at hn; simp [Except.toOption] at hn
  · intro e e2 he he2
    simp [verifyToken, he, he2, Except.toOption]
  · cases hv : verifyToken secret now w with
    | none => exact Or.inr rfl
    | some c => exact Or.inl ⟨c, rfl⟩

/-- Witness for C5 at two concretely failing wires: a malformed token and
an expired genuine token fail for different causes yet both map to
`none`. -/
theorem verify_token_collapses_all_failures_witness :
    (verifyToken defaultJwtSecret sevenDaysInSeconds (.malformed "garbage") =
      (jwtVerify defaultJwtSecret sevenDaysInSeconds (.malformed "garbage")).toOption ∧
    ((∃ e, jwtVerify defaultJwtSecret sevenDaysInSeconds (.malformed "garbage") = .error e) ↔
      verifyToken defaultJwtSecret sevenDaysInSeconds (.malformed "garbage") = none) ∧
    (∀ e e2, jwtVerify defaultJwtSecret sevenDaysInSeconds (.malformed "garbage") = .error e →
      jwtVerify defaultJwtSecret sevenDaysInSeconds
        (.signed (generateToken defaultJwtSecret 0 aliceUser)) = .error e2 →
      verifyToken defaultJwtSecret sevenDaysInSeconds (.malformed "garbage") =
        verifyToken defaultJwtSecret sevenDaysInSeconds
          (.signed (generateToken defaultJwtSecret 0 aliceUser))) ∧
    ((∃ c, verifyToken defaultJwtSecret sevenDaysInSeconds (.malformed "garbage") = some c) ∨
      verifyToken defaultJwtSecret sevenDaysInSeconds (.malformed "garbage") = none)) :=
  verify_token_collapses_all_failures defaultJwtSecret sevenDaysInSeconds
    (.malformed "garbage") (.signed (generateToken defaultJwtSecret 0 aliceUser))

/-! ## Password hashing (server/auth.ts, bcrypt model)

`bcrypt.hash(password, 10)` produces a modular-crypt string
`"$2b$10$" ++ salt ++ digest` where the salt is 22 base64 characters drawn
from the library's RNG and the digest is a one-way function of password
and salt; `bcrypt.compare(password, hash)` re-extracts the salt from the
positions after the 7-character prefix, recomputes the digest and compares.
The digest is modelled as an ideal injective encoding of (password, salt);
the salt is an explicit parameter standing for the RNG output, constrained
to its real 22-character length. -/

/-- Ideal model of the bcrypt digest over (password, salt), as characters. -/
def bcryptDigestChars (password salt : List Char) : List Char :=
  'D' :: password ++ '|' :: salt

/-- The `"$2b$10$"` modular-crypt prefix for `SALT_ROUNDS = 10`. -/
def bcryptPrefixChars : List Char :=
  ['$', '2', 'b', '$', '1', '0', '$']

/-- Model of `bcrypt.hash` output: prefix, salt, digest. -/
def bcryptHashChars (salt password : List Char) : List Char :=
  bcryptPrefixChars ++ salt ++ bcryptDigestChars password salt

/-- Model of `bcrypt.compare`: re-extract the 22-character salt after the
7-character prefix, recompute the digest, compare with the stored rest. -/
def bcryptCompareChars (password hash : List Char) : Bool :=
  ((hash.drop 7).drop 22) == bcryptDigestChars password ((hash.drop 7).take 22)

/-- `hashPassword` from `server/auth.ts` (`bcrypt.hash(password, 10)`);
the salt parameter stands for the RNG draw inside the library. -/
def hashPassword (salt password : String) : String :=
  ⟨bcryptHashChars salt.data password.data⟩

/-- `comparePassword` from `server/auth.ts` (`bcrypt.compare`). -/
def comparePassword (password hash : String) : Bool :=
  bcryptCompareChars password.data hash.data

/-- C6: for every password and every (22-character) salt the library can
draw, the stored hash differs from the plaintext password, and comparing
the original plaintext against the stored hash succeeds — so login with
the original password succeeds against the stored hash. -/
theorem password_hash_round_trip (salt password : String)
    (hsalt : salt.data.length = 22) :
    hashPassword salt password ≠ password ∧
    comparePassword password (hashPassword salt password) = true := by
  constructor
  · intro heq
    have hdata : (hashPassword salt password).data = password.data := by
      rw [heq]
    have hlen : (hashPassword salt password).data.length = password.data.length := by
      rw [hdata]
    rw [hashPassword] at hlen
    simp only [bcryptHashChars, bcryptDigestChars, bcryptPrefixChars,
      List.length_append, List.length_cons] at hlen
    omega
  · rw [comparePassword, hashPassword]
    show bcryptCompareChars password.data (bcryptHashChars salt.data password.data) = true
    rw [bcryptCompareChars, bcryptHashChars, List.append_assoc]
    rw [List.drop_left' (by rfl)]
    rw [List.drop_left' hsalt, List.take_left' hsalt]
    simp

/-- Witness for C6 at a concrete password and a concrete 22-character
salt. -/
theorem password_hash_round_trip_witness :
    ("abcdefghijklmnopqrstuv" : String).data.length = 22 ∧
    (hashPassword "abcdefghijklmnopqrstuv" "hunter2" ≠ "hunter2" ∧
     comparePassword "hunter2" (hashPassword "abcdefghijklmnopqrstuv" "hunter2") = true) :=
  ⟨by decide, password_hash_round_trip "abcdefghijklmnopqrstuv" "hunter2" (by decide)⟩

/-! ## Persistence adapter (server/storage.ts, DatabaseStorage)

The SQL database is modelled as in-memory lists of typed rows, one list
per table, and each drizzle query as the corresponding
filter / sort / limit combinator chain.  Timestamps are `Int`
milliseconds since the epoch (the JS `Date` value); `real` columns are
`ℚ`.  Row structures keep the columns the verified queries read; unread
presentation columns are elided. -/

/-- A `plans` row, restricted to the columns the verified queries read. -/
structure PlanRow where
  id : String
  userId : String
  title : String
  goal : String
  status : String
  createdAt : Int
deriving DecidableEq, Inhabited

/-- A `workout_sessions` row. -/
structure WorkoutSessionRow where
  id : String
  userId : String
  planId : Option String
  date : Int
  duration : Option Int
  caloriesBurned : Option Int
  completed : Bool
deriving DecidableEq, Inhabited

/-- A `progress` row. -/
structure ProgressRow where
  id : String
  userId : String
  date : Int
  weightKg : Option ℚ
  bodyFatPct : Option ℚ
  photoUrl : Option String
deriving DecidableEq, Inhabited

/-- The database state: one list of rows per table the claims touch. -/
structure Db where
  users : List User
  plans : List PlanRow
  workoutSessions : List WorkoutSessionRow
  progress : List ProgressRow

/-- `orderBy(desc(plans.createdAt))` as a comparator for `mergeSort`. -/
def createdAtDesc (a b : PlanRow) : Bool :=
  decide (b.createdAt ≤ a.createdAt)

/-- `getActivePlanByUserId` from `server/storage.ts`:
`where(and(eq(userId), eq(status, "ACTIVE")))`, `orderBy(desc(createdAt))`,
`limit(1)`, then destructuring the first row (or `undefined`). -/
def getActivePlanByUserId (db : Db) (userId : String) : Option PlanRow :=
  (((db.plans.filter fun p => p.userId == userId && p.status == "ACTIVE").mergeSort
    createdAtDesc).take 1).head?

/-- One day in JS `Date` milliseconds. -/
def msPerDay : Int := 86400000

/-- date-fns `subDays(now, days)`. -/
def subDays (now : Int) (days : Nat) : Int :=
  now - days * msPerDay

/-- date-fns `startOfWeek(now, { weekStartsOn: 1 })` on the UTC timeline:
midnight of the Monday of the current week (epoch day 0 was a Thursday,
hence the +3 offset in the Monday-based weekday index). -/
def startOfWeekMonday (now : Int) : Int :=
  let day := now.fdiv msPerDay
  (day - (day + 3).emod 7) * msPerDay

/-- date-fns `endOfWeek(now, { weekStartsOn: 1 })`: last millisecond of
the current Monday-based week. -/
def endOfWeekMonday (now : Int) : Int :=
  startOfWeekMonday now + 7 * msPerDay - 1

/-- `getWorkoutsThisWeek` from `server/storage.ts`: count of the user's
sessions dated within the current Monday-based week. -/
def getWorkoutsThisWeek (db : Db) (userId : String) (now : Int) : Nat :=
  (db.workoutSessions.filter fun s =>
    s.userId == userId && decide (startOfWeekMonday now ≤ s.date)
      && decide (s.date ≤ endOfWeekMonday now)).length

/-- Return shape of `getUserStats`. -/
structure UserStats where
  totalWorkouts : Nat
  thisWeek : Nat
  streak : Nat
  caloriesBurned : Int
deriving DecidableEq, Inhabited

/-- Return shape of `getAdminStats`. -/
structure AdminStats where
  totalUsers : Nat
  totalPlans : Nat
  totalWorkouts : Nat
  averageWorkoutsPerWeek : ℚ
deriving DecidableEq, Inhabited

/-- `getUserStats` from `server/storage.ts`: a count, the this-week count,
the literal `streak: 0`, and `COALESCE(SUM(calories_burned), 0)` (SQL SUM
skips NULL entries; the empty sum coalesces to 0). -/
def getUserStats (db : Db) (userId : String) (now : Int) : UserStats :=
  { totalWorkouts := (db.workoutSessions.filter fun s => s.userId == userId).length
    thisWeek := getWorkoutsThisWeek db userId now
    streak := 0
    caloriesBurned := ((db.workoutSessions.filter fun s => s.userId == userId).map
      fun s => s.caloriesBurned.getD 0).sum }

/-- `getAdminStats` from `server/storage.ts`: three row counts and the
literal `averageWorkoutsPerWeek: 0`. -/
def getAdminStats (db : Db) : AdminStats :=
  { totalUsers := db.users.length
    totalPlans := db.plans.length
    totalWorkouts := db.workoutSessions.length
    averageWorkoutsPerWeek := 0 }

/-- C7: for every database state, every user and every clock instant, the
`streak` field of `getUserStats` and the `averageWorkoutsPerWeek` field of
`getAdminStats` are the hardcoded zero, regardless of the stored workout
sessions. -/
theorem stats_streak_and_average_hardcoded_zero (db : Db) (userId : String) (now : Int) :
    (getUserStats db userId now).streak = 0 ∧
    (getAdminStats db).averageWorkoutsPerWeek = 0 :=
  ⟨rfl, rfl⟩

theorem createdAtDesc_trans (a b c : PlanRow) :
    createdAtDesc a b → createdAtDesc b c → createdAtDesc a c := by
  simp only [createdAtDesc, decide_eq_true_eq]
  omega

theorem createdAtDesc_total (a b : PlanRow) :
    createdAtDesc a b || createdAtDesc b a := by
  simp only [createdAtDesc]
  rcases Int.le_total b.createdAt a.createdAt with h | h <;> simp [h]

theorem head?_take_one {α : Type} (xs : List α) : (xs.take 1).head? = xs.head? := by
  cases xs <;> rfl

/-- C9: `getActivePlanByUserId` returns a plan only if that plan is a
stored plan of the given user with status "ACTIVE" and no other such plan
is more recently created; and it returns `none` exactly when the user has
no ACTIVE plan. -/
theorem active_plan_lookup (db : Db) (uid : String) :
    (∀ p, getActivePlanByUserId db uid = some p →
      p ∈ db.plans ∧ p.userId = uid ∧ p.status = "ACTIVE" ∧
      ∀ q ∈ db.plans, q.userId = uid → q.status = "ACTIVE" → q.createdAt ≤ p.createdAt) ∧
    (getActivePlanByUserId db uid = none ↔
      ∀ q ∈ db.plans, ¬(q.userId = uid ∧ q.status = "ACTIVE")) := by
  constructor
  · intro p hp
    rw [getActivePlanByUserId, head?_take_one] at hp
    cases hsort : (db.plans.filter fun r => r.userId == uid && r.status == "ACTIVE").mergeSort
        createdAtDesc with
    | nil => rw [hsort] at hp; simp at hp
    | cons x rest =>
      rw [hsort] at hp
      simp only [List.head?_cons, Option.some.injEq] at hp
      rw [← hp]
      have hmem : x ∈ db.plans.filter fun r => r.userId == uid && r.status == "ACTIVE" := by
        have hx : x ∈ (db.plans.filter fun r => r.userId == uid && r.status == "ACTIVE").mergeSort
            createdAtDesc := by
          rw [hsort]
          exact List.mem_cons_self _ _
        rwa [List.mem_mergeSort] at hx
      have hfilt := List.mem_filter.mp hmem
      have hcond : x.userId = uid ∧ x.status = "ACTIVE" := by
        have := hfilt.2
        simp only [Bool.and_eq_true, beq_iff_eq] at this
        exact this
      refine ⟨hfilt.1, hcond.1, hcond.2, ?_⟩
      intro q hq hqu hqs
      have hqmem : q ∈ db.plans.filter fun r => r.userId == uid && r.status == "ACTIVE" :=
        List.mem_filter.mpr ⟨hq, by simp [hqu, hqs]⟩
      have hqms : q ∈ (db.plans.filter fun r => r.userId == uid && r.status == "ACTIVE").mergeSort
          createdAtDesc := List.mem_mergeSort.mpr hqmem
      rw [hsort] at hqms
      rcases List.mem_cons.mp hqms with h | h
      · rw [h]
      · have hpair := List.sorted_mergeSort createdAtDesc_trans createdAtDesc_total
          (db.plans.filter fun r => r.userId == uid && r.status == "ACTIVE")
        rw [hsort] at hpair
        have hle := (List.pairwise_cons.mp hpair).1 q h
        simpa [createdAtDesc] using hle
  · rw [getActivePlanByUserId, head?_take_one, List.head?_eq_none_iff]
    constructor
    · intro h q hq hcontr
      have hnil : (db.plans.filter fun r => r.userId == uid && r.status == "ACTIVE") = [] := by
        have hperm := List.mergeSort_perm
          (db.plans.filter fun r => r.userId == uid && r.status == "ACTIVE") createdAtDesc
        rw [h] at hperm
        exact hperm.symm.eq_nil
      have := List.filter_eq_nil_iff.mp hnil q hq
      simp [hcontr.1, hcontr.2] at this
    · intro hnone
      have hnil : (db.plans.filter fun r => r.userId == uid && r.status == "ACTIVE") = [] := by
        apply List.filter_eq_nil_iff.mpr
        intro a ha
        have := hnone a ha
        simp only [Bool.and_eq_true, beq_iff_eq, not_and] at this ⊢
        intro h1 h2
        exact this h1 h2
      rw [hnil]
      simp

/-- Two ACTIVE plans of user u1 with different creation instants, and one
ACTIVE plan of another user. -/
def examplePlanOld : PlanRow :=
  { id := "p1", userId := "u1", title := "Old", goal := "strength", status := "ACTIVE", createdAt := 100 }

def examplePlanNew : PlanRow :=
  { id := "p2", userId := "u1", title := "New", goal := "strength", status := "ACTIVE", createdAt := 200 }

def examplePlanOther : PlanRow :=
  { id := "p3", userId := "u2", title := "Other", goal := "endurance", status := "ACTIVE", createdAt := 300 }

def examplePlanPaused : PlanRow :=
  { id := "p4", userId := "u1", title := "Paused", goal := "strength", status := "PAUSED", createdAt := 400 }

/-- A concrete progress history for user u1: an old row outside any recent
window, a weightless row, and two dated weighed rows out of date order. -/
def exampleProgressA : ProgressRow :=
  { id := "g1", userId := "u1", date := 50 * 86400000, weightKg := some 81, bodyFatPct := none, photoUrl := none }

def exampleProgressB : ProgressRow :=
  { id := "g2", userId := "u1", date := 49 * 86400000, weightKg := some 82, bodyFatPct := none, photoUrl := none }

def exampleProgressNoWeight : ProgressRow :=
  { id := "g3", userId := "u1", date := 50 * 86400000 + 1, weightKg := none, bodyFatPct := some 22, photoUrl := none }

def exampleProgressOld : ProgressRow :=
  { id := "g4", userId := "u1", date := 0, weightKg := some 90, bodyFatPct := none, photoUrl := none }

/-- A concrete database state used by the storage witnesses. -/
def exampleDb : Db :=
  { users := [aliceUser]
    plans := [examplePlanOld, examplePlanNew, examplePlanOther, examplePlanPaused]
    workoutSessions := []
    progress := [exampleProgressA, exampleProgressB, exampleProgressNoWeight, exampleProgressOld] }

/-- Witness for C9 at the concrete database state. -/
theorem active_plan_lookup_witness :
    (∀ p, getActivePlanByUserId exampleDb "u1" = some p →
      p ∈ exampleDb.plans ∧ p.userId = "u1" ∧ p.status = "ACTIVE" ∧
      ∀ q ∈ exampleDb.plans, q.userId = "u1" → q.status = "ACTIVE" → q.createdAt ≤ p.createdAt) ∧
    (getActivePlanByUserId exampleDb "u1" = none ↔
      ∀ q ∈ exampleDb.plans, ¬(q.userId = "u1" ∧ q.status = "ACTIVE")) :=
  active_plan_lookup exampleDb "u1"

/-- One point of the progress chart response.  The code renders the row's
date with `toISOString()`; since ISO-8601 rendering is an injective,
order-preserving image of the underlying instant, the embedding keeps the
instant itself. -/
structure ChartPoint where
  date : Int
  weight : ℚ
deriving DecidableEq, Inhabited

/-- `orderBy(progress.date)` (ascending) as a comparator for `mergeSort`. -/
def dateAsc (a b : ProgressRow) : Bool :=
  decide (a.date ≤ b.date)

/-- `getProgressChart` from `server/storage.ts`:
`where(and(eq(userId), gte(date, subDays(now, days))))`, `orderBy(date)`,
then in JS: drop the rows whose `weight` is null and map each survivor to
`{ date, weight }` (the `as number` cast reads the non-null weight). -/
def getProgressChart (db : Db) (userId : String) (now : Int) (days : Nat) : List ChartPoint :=
  ((((db.progress.filter fun e =>
      e.userId == userId && decide (subDays now days ≤ e.date)).mergeSort
        dateAsc).filter fun e => e.weightKg != none).map fun e =>
    { date := e.date, weight := e.weightKg.getD 0 })

theorem dateAsc_trans (a b c : ProgressRow) :
    dateAsc a b → dateAsc b c → dateAsc a c := by
  simp only [dateAsc, decide_eq_true_eq]
  omega

theorem dateAsc_total (a b : ProgressRow) :
    dateAsc a b || dateAsc b a := by
  simp only [dateAsc]
  rcases Int.le_total a.date b.date with h | h <;> simp [h]

/-- C10: every entry of the progress chart stems from a stored progress
row of the given user whose weight is non-null (`some`) and whose date is
within the `days`-day window before `now`; and the returned list is
sorted in ascending date order. -/
theorem progress_chart_entries (db : Db) (uid : String) (now : Int) (days : Nat) :
    (∀ pt ∈ getProgressChart db uid now days,
      ∃ row, row ∈ db.progress ∧ row.userId = uid ∧ row.weightKg = some pt.weight ∧
        row.date = pt.date ∧ subDays now days ≤ pt.date) ∧
    (getProgressChart db uid now days).Pairwise (fun a b => a.date ≤ b.date) := by
  constructor
  · intro pt hpt
    rw [getProgressChart] at hpt
    simp only [List.mem_map, List.mem_filter, List.mem_mergeSort] at hpt
    obtain ⟨row, ⟨⟨hrowmem, hrowcond⟩, hw⟩, hpt⟩ := hpt
    simp only [Bool.and_eq_true, beq_iff_eq, decide_eq_true_eq] at hrowcond
    have hwsome : row.weightKg = some (row.weightKg.getD 0) := by
      cases hkg : row.weightKg with
      | none => rw [hkg] at hw; simp at hw
      | some a => rfl
    refine ⟨row, hrowmem, hrowcond.1, ?_, ?_, ?_⟩
    · rw [← hpt]
      exact hwsome
    · rw [← hpt]
    · rw [← hpt]
      exact hrowcond.2
  · rw [getProgressChart]
    apply List.pairwise_map.mpr
    apply List.Pairwise.filter
    have hsorted := List.sorted_mergeSort dateAsc_trans dateAsc_total
      (db.progress.filter fun e => e.userId == uid && decide (subDays now days ≤ e.date))
    exact hsorted.imp fun h => by simpa [dateAsc] using h

/-- Witness for C10 at the concrete database state, over a 30-day window
ending at epoch day 60. -/
theorem progress_chart_entries_witness :
    (∀ pt ∈ getProgressChart exampleDb "u1" (60 * 86400000) 30,
      ∃ row, row ∈ exampleDb.progress ∧ row.userId = "u1" ∧ row.weightKg = some pt.weight ∧
        row.date = pt.date ∧ subDays (60 * 86400000) 30 ≤ pt.date) ∧
    (getProgressChart exampleDb "u1" (60 * 86400000) 30).Pairwise (fun a b => a.date ≤ b.date) :=
  progress_chart_entries exampleDb "u1" (60 * 86400000) 30

end FitStack
